import Mathlib

/-!
Verification of the text-input autocomplete widget of `src/main.ts`
(obsidian-auto-folder): the `wrapAround` helper, the `Suggest` list
controller, the `TextInputSuggest` binding layer and the concrete
`FolderSuggest` source, embedded as executable Lean definitions.
-/


/-- JS numbers as they occur in the widget: every numeric slot holds either an
integer or NaN (`none`).  `undefined` used in arithmetic or as an array index
behaves like NaN here, so it is folded into `none` as well. -/
abbrev JSNum := Option Int

/-- JS `+` on the numbers of the widget: NaN propagates. -/
def jsAdd : JSNum → JSNum → JSNum
  | some a, some b => some (a + b)
  | _, _ => none

/-- JS `%` (truncated remainder, sign of the dividend): NaN propagates and
`x % 0` is NaN. -/
def jsMod : JSNum → JSNum → JSNum
  | some a, some b => if b = 0 then none else some (a.tmod b)
  | _, _ => none

/-- `wrapAround` from `src/main.ts` line 167:
`((value % size) + size) % size`. -/
def wrapAround (value size : JSNum) : JSNum :=
  jsMod (jsAdd (jsMod value size) size) size

/-- A rendered `.suggestion-item` element: the content the owner's render
capability wrote into it, and whether it carries the `is-selected` class. -/
structure SuggEl (R : Type) where
  content : R
  isSelected : Bool
deriving DecidableEq

/-- The owner capabilities used by `Suggest` (`ISuggestOwner`), together with
the JS truthiness test of the item type, which decides the
`if (currentValue)` guard in `useSelectedItem`. -/
structure Owner (T R : Type) where
  renderSuggestion : T → R
  truthy : T → Bool

/-- The mutable fields of the `Suggest` list controller
(src/main.ts lines 171..176). -/
structure SuggestState (T R : Type) where
  values : List T
  suggestions : List (SuggEl R)
  selectedItem : JSNum
deriving DecidableEq

/-- JS array indexing `a[i]` with a numeric index: an integer in range yields
the element, anything else (NaN, negative, too large) yields `undefined`. -/
def jsIndex {α : Type} (l : List α) : JSNum → Option α
  | none => none
  | some i => if i < 0 then none else l.get? i.toNat

/-- Mutating the `is-selected` class of the element referenced by index `i`
(`removeClass` for `b = false`, `addClass` for `b = true`); a reference that
is `undefined` is skipped by the source's optional chaining. -/
def setClassAt {R : Type} (l : List (SuggEl R)) (i : JSNum) (b : Bool) :
    List (SuggEl R) :=
  match i with
  | none => l
  | some n =>
    if n < 0 then l
    else
      match l.get? n.toNat with
      | none => l
      | some e => l.set n.toNat ⟨e.content, b⟩

/-- Result of one `Suggest.setSelectedItem` call: the new state, whether
`scrollIntoView` ran, whether the call threw a TypeError
(`selectedSuggestion` was `undefined` while `scrollIntoView` was requested,
since that last call is not optional-chained), and the `(value, size)`
arguments that the call passed to `wrapAround`. -/
structure SelResult (T R : Type) where
  state : SuggestState T R
  scrolled : Bool
  threw : Bool
  wrapValue : JSNum
  wrapSize : Nat
deriving DecidableEq

/-- `Suggest.setSelectedItem` (src/main.ts lines 254..270). -/
def Suggest.setSelectedItem {T R : Type} (s : SuggestState T R)
    (selectedIndex : JSNum) (scrollIntoView : Bool) : SelResult T R :=
  let normalizedIndex := wrapAround selectedIndex (some s.suggestions.length)
  let afterPrev := setClassAt s.suggestions s.selectedItem false
  let afterSel := setClassAt afterPrev normalizedIndex true
  let selectedSuggestion := jsIndex afterSel normalizedIndex
  { state :=
      { values := s.values, suggestions := afterSel,
        selectedItem := normalizedIndex },
    scrolled := scrollIntoView && selectedSuggestion.isSome,
    threw := scrollIntoView && selectedSuggestion.isNone,
    wrapValue := selectedIndex,
    wrapSize := s.suggestions.length }

/-- `Suggest.setSuggestions` (src/main.ts lines 232..245): empties the
container, renders one fresh element per value via the owner, stores the new
lists and then selects index 0 without scrolling. -/
def Suggest.setSuggestions {T R : Type} (o : Owner T R) (s : SuggestState T R)
    (values : List T) : SelResult T R :=
  let suggestionEls := values.map (fun v => SuggEl.mk (o.renderSuggestion v) false)
  Suggest.setSelectedItem
    { values := values, suggestions := suggestionEls,
      selectedItem := s.selectedItem }
    (some 0) false

/-- `Suggest.useSelectedItem` (src/main.ts lines 247..252), returned as the
list of `selectSuggestion` invocations it performs (empty or a singleton
carrying the selected candidate and the originating mouse/keyboard event):
`this.values[this.selectedItem]` is looked up, and the owner is invoked only
when that value is truthy. -/
def Suggest.useSelectedItem {T R E : Type} (o : Owner T R) (s : SuggestState T R)
    (event : E) : List (T × E) :=
  match jsIndex s.values s.selectedItem with
  | none => []
  | some currentValue =>
    if o.truthy currentValue then [(currentValue, event)] else []

/-- One non-composing `ArrowDown` keystroke (src/main.ts lines 204..209):
`setSelectedItem(this.selectedItem + 1, true)`. -/
def Suggest.arrowDownStep {T R : Type} (s : SuggestState T R) : SelResult T R :=
  Suggest.setSelectedItem s (jsAdd s.selectedItem (some 1)) true

/-- Iterating the `ArrowDown` step `n` times. -/
def Suggest.arrowDownIter {T R : Type} (s : SuggestState T R) : Nat → SuggestState T R
  | 0 => s
  | n + 1 => Suggest.arrowDownIter (Suggest.arrowDownStep s).state n

/-- No `ArrowDown` step among the next `n` throws. -/
def Suggest.arrowDownSafe {T R : Type} (s : SuggestState T R) : Nat → Bool
  | 0 => true
  | n + 1 =>
    !(Suggest.arrowDownStep s).threw &&
      Suggest.arrowDownSafe (Suggest.arrowDownStep s).state n

/-- The observable fields of a `TextInputSuggest` widget and its effect on the
host: `scopeDepth` counts the unmatched pushes of this widget's keyboard
scope on the host keymap stack (`app.keymap.pushScope` adds one entry,
`popScope` removes one and is a no-op when the scope is absent — the host
stack is an external interface, modelled from its interface description);
`popperCreated` says whether `this.popper` has ever been assigned (the field
is never cleared), `popperDestroyed` whether the current popper instance has
been destroyed, `attached` whether `suggestEl` is in the document, and
`inputValue` is the bound input element's value.  The controller fields
start unassigned in the source; no operation reads them before
`setSuggestions` first assigns them, and the unassigned numeric
`selectedItem` behaves as NaN, so they start empty/NaN here. -/
structure WidgetState (T R : Type) where
  suggest : SuggestState T R
  scopeDepth : Nat
  popperCreated : Bool
  popperDestroyed : Bool
  attached : Bool
  inputValue : String
deriving DecidableEq

/-- A fresh widget right after the `TextInputSuggest` constructor ran, with
the bound input holding `value`. -/
def TextInputSuggest.initial {T R : Type} (value : String) : WidgetState T R :=
  { suggest := { values := [], suggestions := [], selectedItem := none }
    scopeDepth := 0
    popperCreated := false
    popperDestroyed := false
    attached := false
    inputValue := value }

/-- `TextInputSuggest.open` (src/main.ts lines 321..350): pushes the widget's
scope onto the host keymap stack, appends `suggestEl` to the container and
assigns a fresh popper instance (a previous instance, if any, is overwritten
without being destroyed). -/
def TextInputSuggest.openPanel {T R : Type} (w : WidgetState T R) :
    WidgetState T R :=
  { w with
    scopeDepth := w.scopeDepth + 1
    attached := true
    popperCreated := true
    popperDestroyed := false }

/-- Result of a widget-level operation: the new widget state, the sizes the
operation passed to `wrapAround`, and whether it threw. -/
structure WidgetResult (T R : Type) where
  state : WidgetState T R
  wrapSizes : List Nat
  threw : Bool
deriving DecidableEq

/-- `TextInputSuggest.close` (src/main.ts lines 352..359): pops the scope,
clears the suggestion list via `setSuggestions([])`, destroys the popper
instance if the field was ever assigned, and detaches the panel element. -/
def TextInputSuggest.close {T R : Type} (o : Owner T R) (w : WidgetState T R) :
    WidgetResult T R :=
  let r := Suggest.setSuggestions o w.suggest []
  { state :=
      { suggest := r.state,
        scopeDepth := w.scopeDepth - 1,
        popperCreated := w.popperCreated,
        popperDestroyed := w.popperCreated || w.popperDestroyed,
        attached := false,
        inputValue := w.inputValue },
    wrapSizes := [r.wrapSize],
    threw := r.threw }

/-- `TextInputSuggest.onInputChanged` (src/main.ts lines 303..319): asks the
source for suggestions on the current input value; an absent result or an
empty list closes the panel, a non-empty list is pushed to the controller
and the panel is (re)opened. -/
def TextInputSuggest.onInputChanged {T R : Type} (o : Owner T R)
    (getSuggestions : String → Option (List T)) (w : WidgetState T R) :
    WidgetResult T R :=
  match getSuggestions w.inputValue with
  | none => TextInputSuggest.close o w
  | some suggestions =>
    if suggestions.length > 0 then
      let r := Suggest.setSuggestions o w.suggest suggestions
      { state := TextInputSuggest.openPanel { w with suggest := r.state },
        wrapSizes := [r.wrapSize],
        threw := r.threw }
    else
      TextInputSuggest.close o w

/-- The external events the binding layer reacts to: `input` and `focus` are
wired to `onInputChanged`, `blur` to `close`, and the `Escape` binding of
the widget's scope also calls `close`. -/
inductive Ev
  | input (newValue : String)
  | focus
  | blur
  | escape
deriving DecidableEq

/-- One event step of the widget: an `input` event carries the input
element's new value. -/
def TextInputSuggest.step {T R : Type} (o : Owner T R)
    (getSuggestions : String → Option (List T)) (w : WidgetState T R) :
    Ev → WidgetResult T R
  | .input v =>
    TextInputSuggest.onInputChanged o getSuggestions { w with inputValue := v }
  | .focus => TextInputSuggest.onInputChanged o getSuggestions w
  | .blur => TextInputSuggest.close o w
  | .escape => TextInputSuggest.close o w

/-- Running a sequence of events from a widget state. -/
def TextInputSuggest.run {T R : Type} (o : Owner T R)
    (getSuggestions : String → Option (List T)) (w : WidgetState T R) :
    List Ev → WidgetState T R
  | [] => w
  | e :: es =>
    TextInputSuggest.run o getSuggestions
      (TextInputSuggest.step o getSuggestions w e).state es

/-- An entry of `app.vault.getAllLoadedFiles()`: a loaded file or folder,
identified by its path. -/
inductive TAbstractFile
  | tfile (path : String)
  | tfolder (path : String)
deriving DecidableEq

/-- JS `String.prototype.toLowerCase` on the character lists used here. -/
def jsToLower (s : List Char) : List Char := s.map Char.toLower

/-- Boolean test that `p` starts the list `l`. -/
def startsWithB : List Char → List Char → Bool
  | [], _ => true
  | _ :: _, [] => false
  | a :: as, b :: bs => a == b && startsWithB as bs

/-- JS `haystack.contains(needle)` (Obsidian's alias of `String.includes`):
substring containment. -/
def containsB (needle : List Char) : List Char → Bool
  | [] => needle.isEmpty
  | c :: rest => startsWithB needle (c :: rest) || containsB needle rest

/-- `FolderSuggest.getSuggestions` (src/main.ts lines 367..383): walks all
loaded files in order, pushes the folders whose lowercased path contains the
lowercased input, and truncates with `slice(0, 1000)`.  A `TFolder` handle
is identified by its path. -/
def FolderSuggest.getSuggestions (abstractFiles : List TAbstractFile)
    (inputStr : String) : List String :=
  let lowerCaseInputStr := jsToLower inputStr.toList
  let folders := abstractFiles.foldl
    (fun acc folder =>
      match folder with
      | .tfolder path =>
        if containsB lowerCaseInputStr (jsToLower path.toList) then acc ++ [path]
        else acc
      | .tfile _ => acc)
    []
  folders.take 1000

/-- The spec's reading of the folder source: exactly the known folder paths
that contain the lowercased input as a substring (case-insensitive), in
source order, truncated to the first 1000 matches. -/
def specFolderSuggestions (abstractFiles : List TAbstractFile)
    (inputStr : String) : List String :=
  (abstractFiles.filterMap (fun f =>
    match f with
    | .tfolder path =>
      if containsB (jsToLower inputStr.toList) (jsToLower path.toList) then
        some path
      else none
    | .tfile _ => none)).take 1000

/-- The owner view of `FolderSuggest`: `renderSuggestion` writes the folder's
path (`el.setText(file.path)`), and a `TFolder` handle is a JS object, hence
always truthy. -/
def FolderSuggest.owner : Owner String String :=
  { renderSuggestion := fun path => path, truthy := fun _ => true }

/-- `FolderSuggest`'s suggestion source over a loaded vault, as seen by the
binding layer (it always returns an array, never `undefined`). -/
def FolderSuggest.source (abstractFiles : List TAbstractFile) :
    String → Option (List String) :=
  fun inputStr => some (FolderSuggest.getSuggestions abstractFiles inputStr)

/-- `FolderSuggest.selectSuggestion` (src/main.ts lines 389..393): writes the
chosen folder's path into the bound input, dispatches a synthetic `input`
event — handled synchronously, i.e. the assignment plus dispatch is exactly
the `Ev.input` step — and then calls `close`.  The returned list records
the events the method itself dispatched. -/
def FolderSuggest.selectSuggestion {R : Type} (o : Owner String R)
    (getSuggestions : String → Option (List String))
    (w : WidgetState String R) (file : String) :
    WidgetState String R × List Ev :=
  let w2 := (TextInputSuggest.step o getSuggestions w (Ev.input file)).state
  ((TextInputSuggest.close o w2).state, [Ev.input file])

/-- The loaded folders of end-to-end scenario 1. -/
def vault1 : List TAbstractFile :=
  [TAbstractFile.tfolder "Projects/Work",
   TAbstractFile.tfolder "Projects/Personal",
   TAbstractFile.tfolder "Journal"]

/-- A concrete two-element controller state used by witnesses. -/
def sample2 : SuggestState String String :=
  { values := ["a", "b"],
    suggestions := [⟨"a", true⟩, ⟨"b", false⟩],
    selectedItem := some 0 }

/-- The widget state reached after two input events with non-empty
suggestion results: `open` has run twice, the scope was pushed twice. -/
def doubleOpenState : WidgetState String String :=
  TextInputSuggest.run FolderSuggest.owner (FolderSuggest.source vault1)
    (TextInputSuggest.initial "") [Ev.input "p", Ev.input "pr"]

/-- The widget state reached after one input event with a non-empty
suggestion result: exactly one outstanding scope push. -/
def singleOpenState : WidgetState String String :=
  TextInputSuggest.run FolderSuggest.owner (FolderSuggest.source vault1)
    (TextInputSuggest.initial "") [Ev.input "p"]

/-- The per-file test of the spec's reading of the folder source: a folder
whose lowercased path contains `needle` contributes its path. -/
def folderMatch (needle : List Char) (f : TAbstractFile) : Option String :=
  match f with
  | .tfolder path =>
    if containsB needle (jsToLower path.toList) then some path else none
  | .tfile _ => none

/-- An owner whose items are JS strings rendered as themselves: a string is
truthy exactly when it is non-empty. -/
def stringOwner : Owner String String :=
  { renderSuggestion := fun s => s, truthy := fun s => s != "" }

/-- The truncated remainder by a positive modulus is strictly above `-n`. -/
theorem neg_lt_tmod (v : Int) {n : Int} (h : 0 < n) : -n < v.tmod n := by
  match v, n with
  | Int.ofNat m, n =>
      exact lt_of_lt_of_le (by omega) (Int.tmod_nonneg n (Int.ofNat_nonneg m))
  | Int.negSucc m, Int.ofNat k =>
      show -(Int.ofNat k) < -Int.ofNat (Nat.succ m % k)
      have hk : 0 < k := by
        rw [Int.ofNat_eq_coe] at h
        exact_mod_cast h
      have hlt := Nat.mod_lt (Nat.succ m) hk
      refine Int.neg_lt_neg ?_
      rw [Int.ofNat_eq_coe, Int.ofNat_eq_coe]
      exact_mod_cast hlt
  | Int.negSucc m, Int.negSucc k =>
      exact absurd h (by simp [Int.negSucc_eq]; omega)

/-- The double-remainder trick computes the Euclidean remainder. -/
theorem tmod_add_self_tmod (v : Int) {n : Int} (h : 0 < n) :
    (v.tmod n + n).tmod n = v % n := by
  have h0 : 0 ≤ v.tmod n + n := by have := neg_lt_tmod v h; omega
  rw [Int.tmod_eq_emod h0 (le_of_lt h)]
  have h1 : (v.tmod n + n) % n = v.tmod n % n := by
    have h2 := Int.add_mul_emod_self_left (v.tmod n) n 1
    rw [mul_one] at h2
    exact h2
  rw [h1, Int.tmod_def]
  have h3 := Int.add_mul_emod_self_left v n (-(v.tdiv n))
  simpa [mul_neg, ← sub_eq_add_neg] using h3

/-- For a positive size, `wrapAround` is the Euclidean remainder. -/
theorem wrapAround_pos (v : Int) {n : Int} (h : 0 < n) :
    wrapAround (some v) (some n) = some (v % n) := by
  have hn : n ≠ 0 := by omega
  simp [wrapAround, jsMod, jsAdd, hn, tmod_add_self_tmod v h]

/-- Setting an index of a list to the element already stored there changes
nothing. -/
theorem list_set_of_get? {α : Type} :
    ∀ (l : List α) (n : Nat) (e : α), l.get? n = some e → l.set n e = l
  | [], n, e, h => by simp at h
  | a :: l, 0, e, h => by
      simp at h
      simp [h]
  | a :: l, n + 1, e, h => by
      have ih := list_set_of_get? l n e (by simpa using h)
      simp [ih]

/-- `setClassAt` on the empty element list is the empty list. -/
theorem setClassAt_nil {R : Type} (i : JSNum) (b : Bool) :
    setClassAt ([] : List (SuggEl R)) i b = [] := by
  cases i with
  | none => rfl
  | some n => simp [setClassAt]

/-- `setClassAt` preserves the number of rendered elements. -/
theorem setClassAt_length {R : Type} (l : List (SuggEl R)) (i : JSNum) (b : Bool) :
    (setClassAt l i b).length = l.length := by
  cases i with
  | none => rfl
  | some n =>
    simp only [setClassAt]
    split
    · rfl
    · split
      · rfl
      · exact List.length_set ..

/-- Removing the `is-selected` class is a no-op on a list of elements that
all lack it. -/
theorem setClassAt_all_false {R : Type} (l : List (SuggEl R)) (i : JSNum)
    (h : ∀ e ∈ l, e.isSelected = false) : setClassAt l i false = l := by
  cases i with
  | none => rfl
  | some n =>
    simp only [setClassAt]
    split
    · rfl
    · split
      · rfl
      · rename_i e heq
        have hmem := List.get?_mem heq
        have hsel := h e hmem
        have he : (⟨e.content, false⟩ : SuggEl R) = e := by
          cases e
          simp_all
        rw [he]
        exact list_set_of_get? l n.toNat e heq

/-- JS indexing with an integer inside the bounds yields an element. -/
theorem jsIndex_pos_isSome {α : Type} (l : List α) (r : Int)
    (h0 : 0 ≤ r) (hl : r < (l.length : Int)) :
    (jsIndex l (some r)).isSome = true := by
  simp only [jsIndex]
  rw [if_neg (by omega)]
  have hn : r.toNat < l.length := by omega
  rw [List.get?_eq_get hn]
  rfl

/-- Closed form of `setSuggestions([])`: the controller ends with no values,
no rendered elements and a NaN selection, after passing size 0 to
`wrapAround`; nothing scrolls and nothing throws. -/
theorem setSuggestions_nil {T R : Type} (o : Owner T R) (s : SuggestState T R) :
    Suggest.setSuggestions o s ([] : List T) =
      { state := { values := [], suggestions := [], selectedItem := none },
        scrolled := false, threw := false, wrapValue := some 0,
        wrapSize := 0 } := by
  simp [Suggest.setSuggestions, Suggest.setSelectedItem, wrapAround, jsMod,
    jsAdd, setClassAt_nil, jsIndex]

/-- Closed form of `setSuggestions` on a non-empty list: one fresh element
per item in order, rendered through the owner, the head element alone
marked selected, selection index 0, no scroll, no throw, and the wrap call
receives the new positive length. -/
theorem setSuggestions_cons {T R : Type} (o : Owner T R) (s : SuggestState T R)
    (hd : T) (tl : List T) :
    Suggest.setSuggestions o s (hd :: tl) =
      { state :=
          { values := hd :: tl,
            suggestions := ⟨o.renderSuggestion hd, true⟩ ::
              tl.map (fun v => ⟨o.renderSuggestion v, false⟩),
            selectedItem := some 0 },
        scrolled := false, threw := false, wrapValue := some 0,
        wrapSize := tl.length + 1 } := by
  have hlenpos : (0 : Int) < ((tl.length + 1 : Nat) : Int) := by
    exact_mod_cast Nat.succ_pos tl.length
  have hwrap := wrapAround_pos 0 hlenpos
  rw [Int.zero_emod] at hwrap
  have hall : ∀ e ∈ (hd :: tl).map
      (fun v => SuggEl.mk (o.renderSuggestion v) false), e.isSelected = false := by
    intro e he
    rcases List.mem_map.mp he with ⟨v, _, rfl⟩
    rfl
  simp only [Suggest.setSuggestions, Suggest.setSelectedItem, List.length_map,
    List.length_cons, hwrap, setClassAt_all_false _ _ hall]
  simp [setClassAt, jsIndex, List.map_cons]

/-- `setSelectedItem` with an integer index on a non-empty rendered list:
the selection lands on the Euclidean remainder of the index, the list keeps
its length and values, nothing throws, and the wrap call receives the
positive current length. -/
theorem setSelectedItem_pos {T R : Type} (s : SuggestState T R) (idx : Int)
    (b : Bool) (h : s.suggestions ≠ []) :
    (Suggest.setSelectedItem s (some idx) b).state.selectedItem
        = some (idx % (s.suggestions.length : Int)) ∧
    (Suggest.setSelectedItem s (some idx) b).state.suggestions.length
        = s.suggestions.length ∧
    (Suggest.setSelectedItem s (some idx) b).state.values = s.values ∧
    (Suggest.setSelectedItem s (some idx) b).threw = false ∧
    (Suggest.setSelectedItem s (some idx) b).wrapSize = s.suggestions.length := by
  have hpos : 0 < s.suggestions.length := List.length_pos.mpr h
  have hposZ : (0 : Int) < (s.suggestions.length : Int) := by exact_mod_cast hpos
  have hwrap := wrapAround_pos idx hposZ
  have hr0 : 0 ≤ idx % (s.suggestions.length : Int) :=
    Int.emod_nonneg idx (by omega)
  have hrl : idx % (s.suggestions.length : Int) < (s.suggestions.length : Int) :=
    Int.emod_lt_of_pos idx hposZ
  have hlen2 : (setClassAt (setClassAt s.suggestions s.selectedItem false)
      (some (idx % (s.suggestions.length : Int))) true).length
      = s.suggestions.length := by
    rw [setClassAt_length, setClassAt_length]
  have hsome := jsIndex_pos_isSome
    (setClassAt (setClassAt s.suggestions s.selectedItem false)
      (some (idx % (s.suggestions.length : Int))) true)
    (idx % (s.suggestions.length : Int)) hr0 (by rw [hlen2]; exact hrl)
  rcases Option.isSome_iff_exists.mp hsome with ⟨e, he⟩
  simp only [Suggest.setSelectedItem, hwrap]
  simp [hlen2, he]

/-- The `ArrowDown` invariant: starting from an in-range integer selection
`i`, `k` steps land on `(i + k) mod len`, the rendered list keeps its
length, and no step throws. -/
theorem arrowDownIter_invariant {T R : Type} (k : Nat) :
    ∀ (s : SuggestState T R) (i : Int),
      s.selectedItem = some i → 0 ≤ i → i < (s.suggestions.length : Int) →
      (Suggest.arrowDownIter s k).selectedItem
          = some ((i + k) % (s.suggestions.length : Int)) ∧
      (Suggest.arrowDownIter s k).suggestions.length = s.suggestions.length ∧
      Suggest.arrowDownSafe s k = true := by
  induction k with
  | zero =>
    intro s i hsel h0 hl
    have hmod : (i + ((0 : Nat) : Int)) % (s.suggestions.length : Int) = i := by
      simp only [Nat.cast_zero, add_zero]
      exact Int.emod_eq_of_lt h0 hl
    exact ⟨by rw [show Suggest.arrowDownIter s 0 = s from rfl, hsel, hmod], rfl, rfl⟩
  | succ n ih =>
    intro s i hsel h0 hl
    have hlen : (0 : Int) < (s.suggestions.length : Int) := lt_of_le_of_lt h0 hl
    have hne : s.suggestions ≠ [] := by
      intro hnil
      rw [hnil] at hl
      simp at hl
      omega
    have hstepEq : Suggest.arrowDownStep s
        = Suggest.setSelectedItem s (some (i + 1)) true := by
      rw [Suggest.arrowDownStep, hsel]
      rfl
    have hstep := setSelectedItem_pos s (i + 1) true hne
    have hsel2 : (Suggest.arrowDownStep s).state.selectedItem
        = some ((i + 1) % (s.suggestions.length : Int)) := by
      rw [hstepEq]; exact hstep.1
    have hlen2 : (Suggest.arrowDownStep s).state.suggestions.length
        = s.suggestions.length := by
      rw [hstepEq]; exact hstep.2.1
    have hthrew : (Suggest.arrowDownStep s).threw = false := by
      rw [hstepEq]; exact hstep.2.2.2.1
    have h0m : 0 ≤ (i + 1) % (s.suggestions.length : Int) :=
      Int.emod_nonneg (i + 1) (by omega)
    have hlm : (i + 1) % (s.suggestions.length : Int)
        < ((Suggest.arrowDownStep s).state.suggestions.length : Int) := by
      rw [hlen2]
      exact Int.emod_lt_of_pos (i + 1) hlen
    have hrec := ih (Suggest.arrowDownStep s).state
      ((i + 1) % (s.suggestions.length : Int)) hsel2 h0m hlm
    refine ⟨?_, ?_, ?_⟩
    · rw [show Suggest.arrowDownIter s (n + 1)
          = Suggest.arrowDownIter (Suggest.arrowDownStep s).state n from rfl]
      rw [hrec.1, hlen2, Int.emod_add_emod]
      congr 2
      push_cast
      ring
    · rw [show Suggest.arrowDownIter s (n + 1)
          = Suggest.arrowDownIter (Suggest.arrowDownStep s).state n from rfl]
      rw [hrec.2.1, hlen2]
    · rw [show Suggest.arrowDownSafe s (n + 1)
          = (!(Suggest.arrowDownStep s).threw &&
              Suggest.arrowDownSafe (Suggest.arrowDownStep s).state n) from rfl]
      rw [hthrew, hrec.2.2]
      rfl

/-- Closed form of `TextInputSuggest.close`: scope popped once (no-op at
depth 0), controller cleared with a NaN selection, popper destroyed if one
was ever assigned, panel detached, input value untouched; the one wrap call
has size 0 and nothing throws. -/
theorem close_eq {T R : Type} (o : Owner T R) (w : WidgetState T R) :
    TextInputSuggest.close o w =
      { state :=
          { suggest := { values := [], suggestions := [], selectedItem := none }
            scopeDepth := w.scopeDepth - 1
            popperCreated := w.popperCreated
            popperDestroyed := w.popperCreated || w.popperDestroyed
            attached := false
            inputValue := w.inputValue },
        wrapSizes := [0], threw := false } := by
  simp only [TextInputSuggest.close, setSuggestions_nil]

/-- `onInputChanged` never modifies the bound input's value. -/
theorem onInputChanged_inputValue {T R : Type} (o : Owner T R)
    (gs : String → Option (List T)) (w : WidgetState T R) :
    (TextInputSuggest.onInputChanged o gs w).state.inputValue = w.inputValue := by
  rw [TextInputSuggest.onInputChanged]
  cases gs w.inputValue with
  | none => simp [close_eq]
  | some l =>
    by_cases hl : l.length > 0
    · simp [hl, TextInputSuggest.openPanel]
    · simp [hl, close_eq]

/-- Claim C3: for every integer `v`, every integer `n > 0` and every integer
`k`, `wrapAround (v, n)` equals `((v mod n) + n) mod n`, that value lies in
`[0, n)`, and `wrapAround` is `n`-periodic in its first argument, regardless
of the sign of `v`. -/
theorem claim_C3 (v n k : Int) (h : 0 < n) :
    wrapAround (some v) (some n) = some ((v % n + n) % n) ∧
    0 ≤ (v % n + n) % n ∧ (v % n + n) % n < n ∧
    wrapAround (some (v + k * n)) (some n) = wrapAround (some v) (some n) := by
  have hcollapse : (v % n + n) % n = v % n := by
    have h1 := Int.add_mul_emod_self_left (v % n) n 1
    rw [mul_one] at h1
    rw [h1]
    exact Int.emod_emod_of_dvd v dvd_rfl
  refine ⟨?_, ?_, ?_, ?_⟩
  · rw [wrapAround_pos v h, hcollapse]
  · rw [hcollapse]
    exact Int.emod_nonneg v (by omega)
  · rw [hcollapse]
    exact Int.emod_lt_of_pos v h
  · rw [wrapAround_pos v h, wrapAround_pos (v + k * n) h,
      Int.add_mul_emod_self]

/-- Witness for claim C3 at `v = -5`, `n = 3`, `k = 2`. -/
theorem claim_C3_witness :
    wrapAround (some (-5)) (some 3) = some (((-5) % 3 + 3) % 3) ∧
    0 ≤ ((-5) % 3 + 3) % 3 ∧ ((-5) % 3 + 3) % 3 < 3 ∧
    wrapAround (some (-5 + 2 * 3)) (some 3) = wrapAround (some (-5)) (some 3) :=
  claim_C3 (-5) 3 2 (by decide)

/-- Claim C4: for every non-empty item list, `setSuggestions` replaces the
rendered elements with exactly one fresh element per item in source order,
rendered via the owner's render capability, resets the selection index to 0
with no scroll-into-view (and no throw), and exactly one rendered element —
element 0 — is marked selected. -/
theorem claim_C4 {T R : Type} (o : Owner T R) (s : SuggestState T R)
    (hd : T) (tl : List T) :
    (Suggest.setSuggestions o s (hd :: tl)).state.values = hd :: tl ∧
    (Suggest.setSuggestions o s (hd :: tl)).state.suggestions =
      ⟨o.renderSuggestion hd, true⟩ ::
        tl.map (fun v => ⟨o.renderSuggestion v, false⟩) ∧
    (Suggest.setSuggestions o s (hd :: tl)).state.selectedItem = some 0 ∧
    (Suggest.setSuggestions o s (hd :: tl)).scrolled = false ∧
    (Suggest.setSuggestions o s (hd :: tl)).threw = false ∧
    ((Suggest.setSuggestions o s (hd :: tl)).state.suggestions.filter
        (fun e => e.isSelected)).length = 1 := by
  rw [setSuggestions_cons]
  refine ⟨rfl, rfl, rfl, rfl, rfl, ?_⟩
  have hnil : (tl.map
      (fun v => (⟨o.renderSuggestion v, false⟩ : SuggEl R))).filter
        (fun e => e.isSelected) = [] := by
    rw [List.filter_eq_nil_iff]
    intro e he
    rcases List.mem_map.mp he with ⟨v, _, rfl⟩
    simp
  simp [List.filter_cons, hnil]

/-- Claim C5: on a non-empty rendered list of length `len`, `setSelectedItem`
with any integer index — also one outside `[0, len)` — lands exactly on the
in-range value `wrapAround(idx, len)` and never throws; and from any
in-range selection, `len` ArrowDown steps (select current + 1) return the
selection to the original index, with no step throwing. -/
theorem claim_C5 {T R : Type} (s : SuggestState T R) (idx i : Int) (b : Bool)
    (hsel : s.selectedItem = some i) (h0 : 0 ≤ i)
    (hl : i < (s.suggestions.length : Int)) :
    (Suggest.setSelectedItem s (some idx) b).state.selectedItem
        = wrapAround (some idx) (some (s.suggestions.length : Int)) ∧
    (Suggest.setSelectedItem s (some idx) b).state.selectedItem
        = some (idx % (s.suggestions.length : Int)) ∧
    0 ≤ idx % (s.suggestions.length : Int) ∧
    idx % (s.suggestions.length : Int) < (s.suggestions.length : Int) ∧
    (Suggest.setSelectedItem s (some idx) b).threw = false ∧
    (Suggest.arrowDownIter s s.suggestions.length).selectedItem = some i ∧
    Suggest.arrowDownSafe s s.suggestions.length = true := by
  have hlen : (0 : Int) < (s.suggestions.length : Int) := lt_of_le_of_lt h0 hl
  have hne : s.suggestions ≠ [] := by
    intro hnil
    rw [hnil] at hl
    simp at hl
    omega
  have hset := setSelectedItem_pos s idx b hne
  have hinv := arrowDownIter_invariant s.suggestions.length s i hsel h0 hl
  have hcycle : (i + ((s.suggestions.length : Nat) : Int))
      % (s.suggestions.length : Int) = i := by
    have h1 := Int.add_mul_emod_self_left i (s.suggestions.length : Int) 1
    rw [mul_one] at h1
    rw [h1]
    exact Int.emod_eq_of_lt h0 hl
  refine ⟨?_, hset.1, Int.emod_nonneg idx (by omega),
    Int.emod_lt_of_pos idx hlen, hset.2.2.2.1, ?_, hinv.2.2⟩
  · rw [hset.1, wrapAround_pos idx hlen]
  · rw [hinv.1, hcycle]

/-- Witness for claim C5 on a two-element list with index `-7`. -/
theorem claim_C5_witness :
    (Suggest.setSelectedItem sample2 (some (-7)) true).state.selectedItem
        = wrapAround (some (-7)) (some (sample2.suggestions.length : Int)) ∧
    (Suggest.setSelectedItem sample2 (some (-7)) true).state.selectedItem
        = some ((-7) % (sample2.suggestions.length : Int)) ∧
    0 ≤ (-7) % (sample2.suggestions.length : Int) ∧
    (-7) % (sample2.suggestions.length : Int)
        < (sample2.suggestions.length : Int) ∧
    (Suggest.setSelectedItem sample2 (some (-7)) true).threw = false ∧
    (Suggest.arrowDownIter sample2 sample2.suggestions.length).selectedItem
        = some 0 ∧
    Suggest.arrowDownSafe sample2 sample2.suggestions.length = true :=
  claim_C5 sample2 (-7) 0 true rfl (by decide) (by decide)

/-- Claim C1 fails on the code: two consecutive input-changed events whose
recomputations both return non-empty suggestions each execute `open`, which
pushes the widget's scope unconditionally; the blur-driven `close` pops only
once.  The panel ends logically closed — detached, suggestion list cleared —
while one active scope entry remains on the host keymap stack. -/
theorem claim_C1_scope_leak :
    (TextInputSuggest.run FolderSuggest.owner (FolderSuggest.source vault1)
        (TextInputSuggest.initial "") [Ev.input "p", Ev.input "pr"]).scopeDepth
      = 2 ∧
    (TextInputSuggest.run FolderSuggest.owner (FolderSuggest.source vault1)
        (TextInputSuggest.initial "")
        [Ev.input "p", Ev.input "pr", Ev.blur]).attached = false ∧
    (TextInputSuggest.run FolderSuggest.owner (FolderSuggest.source vault1)
        (TextInputSuggest.initial "")
        [Ev.input "p", Ev.input "pr", Ev.blur]).suggest.suggestions = [] ∧
    (TextInputSuggest.run FolderSuggest.owner (FolderSuggest.source vault1)
        (TextInputSuggest.initial "")
        [Ev.input "p", Ev.input "pr", Ev.blur]).scopeDepth = 1 := by
  decide

/-- Counterexample to claim C2: `close()` — which runs `setSuggestions([])` —
invokes `wrapAround` with size 0 (already on a fresh widget), and that call
returns NaN rather than an index. -/
theorem claim_C2_counterexample :
    (TextInputSuggest.close FolderSuggest.owner
        (TextInputSuggest.initial "" : WidgetState String String)).wrapSizes
      = [0] ∧
    (Suggest.setSuggestions FolderSuggest.owner
        { values := [], suggestions := [], selectedItem := none }
        ([] : List String)).wrapSize = 0 ∧
    wrapAround (some 0) (some 0) = none := by
  decide

/-- Claim C2 (amended): every navigation call of `setSelectedItem` passes the
current rendered-list length to `wrapAround` — strictly positive whenever
the rendered list is non-empty — and `setSuggestions` on a non-empty list
passes that list's positive length; however `close()` and
`setSuggestions([])` do invoke `wrapAround` with size 0, harmlessly: the
selection becomes NaN and nothing throws. -/
theorem claim_C2_amended {T R : Type} (o : Owner T R) (s : SuggestState T R)
    (idx : JSNum) (b : Bool) (w : WidgetState T R) (l : List T)
    (hs : s.suggestions ≠ []) (hl : l ≠ []) :
    0 < (Suggest.setSelectedItem s idx b).wrapSize ∧
    0 < (Suggest.setSuggestions o s l).wrapSize ∧
    (TextInputSuggest.close o w).wrapSizes = [0] ∧
    (TextInputSuggest.close o w).threw = false ∧
    (TextInputSuggest.close o w).state.suggest.selectedItem = none := by
  refine ⟨?_, ?_, ?_, ?_, ?_⟩
  · show 0 < s.suggestions.length
    exact List.length_pos.mpr hs
  · cases l with
    | nil => exact absurd rfl hl
    | cons hd tl =>
      rw [setSuggestions_cons]
      exact Nat.succ_pos tl.length
  · rw [close_eq]
  · rw [close_eq]
  · rw [close_eq]

/-- Witness for claim C2 (amended) on concrete non-empty inputs. -/
theorem claim_C2_amended_witness :
    0 < (Suggest.setSelectedItem sample2 (some 5) true).wrapSize ∧
    0 < (Suggest.setSuggestions FolderSuggest.owner sample2 ["a"]).wrapSize ∧
    (TextInputSuggest.close FolderSuggest.owner
        (TextInputSuggest.initial "" : WidgetState String String)).wrapSizes
      = [0] ∧
    (TextInputSuggest.close FolderSuggest.owner
        (TextInputSuggest.initial "" : WidgetState String String)).threw
      = false ∧
    (TextInputSuggest.close FolderSuggest.owner
        (TextInputSuggest.initial ""
          : WidgetState String String)).state.suggest.selectedItem = none :=
  claim_C2_amended FolderSuggest.owner sample2 (some 5) true
    (TextInputSuggest.initial "") ["a"] (by decide) (by decide)

/-- Counterexample to claim C6: from the reachable state in which `open` ran
twice without an intervening `close`, calling `close()` twice does not
produce the same observable state as calling it once — the second call also
pops the leaked scope entry that the first call left active. -/
theorem claim_C6_counterexample :
    (TextInputSuggest.close FolderSuggest.owner
        (TextInputSuggest.close FolderSuggest.owner doubleOpenState).state).state
      ≠ (TextInputSuggest.close FolderSuggest.owner doubleOpenState).state := by
  decide

/-- Claim C6 (amended): `close()` never throws — in particular when the
panel was never opened or is already closed — and from every state carrying
at most one outstanding scope push (which excludes only the states reached
by re-running `open` while already open), `close()` is idempotent: calling
it twice in a row produces the same observable state as calling it once. -/
theorem claim_C6_amended {T R : Type} (o : Owner T R) (w : WidgetState T R)
    (h : w.scopeDepth ≤ 1) :
    (TextInputSuggest.close o w).threw = false ∧
    (TextInputSuggest.close o (TextInputSuggest.close o w).state).state
      = (TextInputSuggest.close o w).state := by
  simp only [close_eq]
  refine ⟨trivial, ?_⟩
  have hd : w.scopeDepth - 1 - 1 = w.scopeDepth - 1 := by omega
  have hb : (w.popperCreated || (w.popperCreated || w.popperDestroyed))
      = (w.popperCreated || w.popperDestroyed) := by
    cases w.popperCreated <;> rfl
  rw [hd, hb]

/-- Witness for claim C6 (amended) at the once-opened state. -/
theorem claim_C6_amended_witness :
    (TextInputSuggest.close FolderSuggest.owner singleOpenState).threw
      = false ∧
    (TextInputSuggest.close FolderSuggest.owner
        (TextInputSuggest.close FolderSuggest.owner singleOpenState).state).state
      = (TextInputSuggest.close FolderSuggest.owner singleOpenState).state :=
  claim_C6_amended FolderSuggest.owner singleOpenState (by decide)

/-- Claim C7: on every input-changed/focus recomputation the binding layer
asks the source for candidates on the current text and transitions by
cases — an absent result closes the panel; an empty candidate list closes
the panel; a non-empty list is pushed to the list controller (values
stored, selection reset to 0) and the widget is (re)opened: panel attached,
scope pushed, a fresh positioning instance assigned — all without touching
the input's value. -/
theorem claim_C7 {T R : Type} (o : Owner T R) (gs : String → Option (List T))
    (w : WidgetState T R) :
    (gs w.inputValue = none →
      TextInputSuggest.onInputChanged o gs w = TextInputSuggest.close o w ∧
      (TextInputSuggest.onInputChanged o gs w).state.attached = false) ∧
    (gs w.inputValue = some [] →
      TextInputSuggest.onInputChanged o gs w = TextInputSuggest.close o w ∧
      (TextInputSuggest.onInputChanged o gs w).state.attached = false) ∧
    (∀ hd tl, gs w.inputValue = some (hd :: tl) →
      (TextInputSuggest.onInputChanged o gs w).state.attached = true ∧
      (TextInputSuggest.onInputChanged o gs w).state.scopeDepth
        = w.scopeDepth + 1 ∧
      (TextInputSuggest.onInputChanged o gs w).state.popperCreated = true ∧
      (TextInputSuggest.onInputChanged o gs w).state.popperDestroyed = false ∧
      (TextInputSuggest.onInputChanged o gs w).state.suggest.values
        = hd :: tl ∧
      (TextInputSuggest.onInputChanged o gs w).state.suggest.selectedItem
        = some 0 ∧
      (TextInputSuggest.onInputChanged o gs w).state.inputValue
        = w.inputValue) := by
  refine ⟨?_, ?_, ?_⟩
  · intro hnone
    have he : TextInputSuggest.onInputChanged o gs w
        = TextInputSuggest.close o w := by
      rw [TextInputSuggest.onInputChanged, hnone]
    refine ⟨he, ?_⟩
    rw [he, close_eq]
  · intro hempty
    have he : TextInputSuggest.onInputChanged o gs w
        = TextInputSuggest.close o w := by
      rw [TextInputSuggest.onInputChanged, hempty]
      rfl
    refine ⟨he, ?_⟩
    rw [he, close_eq]
  · intro hd tl hcons
    rw [TextInputSuggest.onInputChanged, hcons]
    simp [setSuggestions_cons, TextInputSuggest.openPanel]

/-- Witness for claim C7: the three transition branches at concrete
inputs — an absent result, an empty result, and scenario 1's non-empty
result for the text `"pro"`. -/
theorem claim_C7_witness :
    (TextInputSuggest.onInputChanged FolderSuggest.owner
        (fun _ => (none : Option (List String)))
        (TextInputSuggest.initial "x")
      = TextInputSuggest.close FolderSuggest.owner
          (TextInputSuggest.initial "x") ∧
     (TextInputSuggest.onInputChanged FolderSuggest.owner
        (fun _ => (none : Option (List String)))
        (TextInputSuggest.initial "x")).state.attached = false) ∧
    (TextInputSuggest.onInputChanged FolderSuggest.owner
        (fun _ => some ([] : List String)) (TextInputSuggest.initial "x")
      = TextInputSuggest.close FolderSuggest.owner
          (TextInputSuggest.initial "x") ∧
     (TextInputSuggest.onInputChanged FolderSuggest.owner
        (fun _ => some ([] : List String))
        (TextInputSuggest.initial "x")).state.attached = false) ∧
    ((TextInputSuggest.onInputChanged FolderSuggest.owner
        (FolderSuggest.source vault1)
        (TextInputSuggest.initial "pro")).state.attached = true ∧
     (TextInputSuggest.onInputChanged FolderSuggest.owner
        (FolderSuggest.source vault1)
        (TextInputSuggest.initial "pro")).state.scopeDepth
       = (TextInputSuggest.initial "pro"
           : WidgetState String String).scopeDepth + 1 ∧
     (TextInputSuggest.onInputChanged FolderSuggest.owner
        (FolderSuggest.source vault1)
        (TextInputSuggest.initial "pro")).state.popperCreated = true ∧
     (TextInputSuggest.onInputChanged FolderSuggest.owner
        (FolderSuggest.source vault1)
        (TextInputSuggest.initial "pro")).state.popperDestroyed = false ∧
     (TextInputSuggest.onInputChanged FolderSuggest.owner
        (FolderSuggest.source vault1)
        (TextInputSuggest.initial "pro")).state.suggest.values
       = "Projects/Work" :: ["Projects/Personal"] ∧
     (TextInputSuggest.onInputChanged FolderSuggest.owner
        (FolderSuggest.source vault1)
        (TextInputSuggest.initial "pro")).state.suggest.selectedItem
       = some 0 ∧
     (TextInputSuggest.onInputChanged FolderSuggest.owner
        (FolderSuggest.source vault1)
        (TextInputSuggest.initial "pro")).state.inputValue
       = (TextInputSuggest.initial "pro"
           : WidgetState String String).inputValue) :=
  ⟨(claim_C7 FolderSuggest.owner (fun _ => none)
      (TextInputSuggest.initial "x")).1 rfl,
   (claim_C7 FolderSuggest.owner (fun _ => some [])
      (TextInputSuggest.initial "x")).2.1 rfl,
   (claim_C7 FolderSuggest.owner (FolderSuggest.source vault1)
      (TextInputSuggest.initial "pro")).2.2
     "Projects/Work" ["Projects/Personal"] (by decide)⟩

/-- The push-loop of `FolderSuggest.getSuggestions` accumulates exactly the
filtered paths, in order. -/
theorem foldl_push_eq_filterMap (needle : List Char)
    (files : List TAbstractFile) :
    ∀ acc : List String,
      files.foldl
        (fun acc folder =>
          match folder with
          | .tfolder path =>
            if containsB needle (jsToLower path.toList) then acc ++ [path]
            else acc
          | .tfile _ => acc) acc
      = acc ++ files.filterMap (folderMatch needle) := by
  induction files with
  | nil =>
    intro acc
    simp
  | cons f fs ih =>
    intro acc
    cases f with
    | tfile p =>
      simp only [List.foldl_cons]
      rw [ih]
      simp [folderMatch]
    | tfolder p =>
      simp only [List.foldl_cons]
      by_cases hm : containsB needle (jsToLower p.toList) = true
      · have hf : folderMatch needle (TAbstractFile.tfolder p) = some p := by
          simp only [folderMatch]
          rw [if_pos hm]
        rw [if_pos hm, ih, List.filterMap_cons_some hf]
        simp
      · have hf : folderMatch needle (TAbstractFile.tfolder p) = none := by
          simp only [folderMatch]
          rw [if_neg hm]
        rw [if_neg hm, ih, List.filterMap_cons_none hf]

/-- Claim C8: the folder-path source returns exactly the known folder paths
that contain the lowercased input as a substring (case-insensitive), in
source order, truncated to the first 1000 matches; selecting a suggestion
writes the chosen folder's path into the bound input element, dispatches a
synthetic input event (handled synchronously before anything else), and
then closes the panel; and on the vault
`["Projects/Work", "Projects/Personal", "Journal"]` with input `"pro"` the
suggestions are `["Projects/Work", "Projects/Personal"]` with selection
index 0. -/
theorem claim_C8 :
    (∀ (files : List TAbstractFile) (input : String),
      FolderSuggest.getSuggestions files input
        = specFolderSuggestions files input) ∧
    (∀ (gs : String → Option (List String)) (w : WidgetState String String)
        (file : String),
      (FolderSuggest.selectSuggestion FolderSuggest.owner gs w
          file).1.inputValue = file ∧
      (FolderSuggest.selectSuggestion FolderSuggest.owner gs w file).2
          = [Ev.input file] ∧
      (FolderSuggest.selectSuggestion FolderSuggest.owner gs w
          file).1.attached = false) ∧
    FolderSuggest.getSuggestions vault1 "pro"
        = ["Projects/Work", "Projects/Personal"] ∧
    (TextInputSuggest.run FolderSuggest.owner (FolderSuggest.source vault1)
        (TextInputSuggest.initial "") [Ev.input "pro"]).suggest.values
        = ["Projects/Work", "Projects/Personal"] ∧
    (TextInputSuggest.run FolderSuggest.owner (FolderSuggest.source vault1)
        (TextInputSuggest.initial "") [Ev.input "pro"]).suggest.selectedItem
        = some 0 := by
  refine ⟨?_, ?_, by decide, by decide, by decide⟩
  · intro files input
    simp only [FolderSuggest.getSuggestions, specFolderSuggestions]
    rw [foldl_push_eq_filterMap]
    simp only [List.nil_append]
    rfl
  · intro gs w file
    refine ⟨?_, rfl, ?_⟩
    · show (TextInputSuggest.close FolderSuggest.owner
          (TextInputSuggest.step FolderSuggest.owner gs w
            (Ev.input file)).state).state.inputValue = file
      rw [close_eq]
      show (TextInputSuggest.onInputChanged FolderSuggest.owner gs
          { w with inputValue := file }).state.inputValue = file
      rw [onInputChanged_inputValue]
    · show (TextInputSuggest.close FolderSuggest.owner
          (TextInputSuggest.step FolderSuggest.owner gs w
            (Ev.input file)).state).state.attached = false
      rw [close_eq]

/-- JS indexing into an empty array always yields `undefined`. -/
theorem jsIndex_nil {α : Type} (i : JSNum) : jsIndex ([] : List α) i = none := by
  cases i with
  | none => rfl
  | some n => simp [jsIndex]

/-- Counterexample to claim C9: a one-element suggestion set whose selected
candidate is the empty string — a falsy JS value.  The set is non-empty and
a valid current selection (index 0) exists, yet `useSelectedItem` performs
no invocation at all. -/
theorem claim_C9_counterexample :
    Suggest.useSelectedItem stringOwner
      { values := [""], suggestions := [⟨"", true⟩], selectedItem := some 0 }
      "Enter" = [] := by
  decide

/-- Claim C9 (amended): `useSelectedItem` on an empty suggestion set is a
silent no-op — no invocation, no error; on a non-empty set whose current
selection holds a truthy candidate, it invokes the owner's select
capability exactly once, with that candidate and the originating event. -/
theorem claim_C9_amended {T R E : Type} (o : Owner T R) (s : SuggestState T R)
    (i : Int) (v : T) (event : E) :
    (s.values = [] → Suggest.useSelectedItem o s event = []) ∧
    (s.selectedItem = some i → jsIndex s.values (some i) = some v →
      o.truthy v = true →
      Suggest.useSelectedItem o s event = [(v, event)]) := by
  constructor
  · intro hnil
    rw [Suggest.useSelectedItem, hnil, jsIndex_nil]
  · intro hsel hv htr
    rw [Suggest.useSelectedItem, hsel, hv]
    simp [htr]

/-- Witness for claim C9 (amended): the empty set is a no-op, and a truthy
selected candidate is invoked once with the event. -/
theorem claim_C9_amended_witness :
    Suggest.useSelectedItem stringOwner
      { values := [], suggestions := [], selectedItem := none }
      "Enter" = [] ∧
    Suggest.useSelectedItem stringOwner
      { values := ["a"], suggestions := [⟨"a", true⟩], selectedItem := some 0 }
      "Enter" = [("a", "Enter")] :=
  ⟨(claim_C9_amended stringOwner
      { values := [], suggestions := [], selectedItem := none }
      0 "a" "Enter").1 rfl,
   (claim_C9_amended stringOwner
      { values := ["a"], suggestions := [⟨"a", true⟩], selectedItem := some 0 }
      0 "a" "Enter").2 rfl (by decide) (by decide)⟩

/-- Claim C10 (implicit): `useSelectedItem` guards on the truthiness of the
selected value, not on the emptiness of the set — for every non-empty
suggestion list whose currently selected element is a falsy value, the
owner's select capability is not invoked at all, even though a valid
selection exists. -/
theorem claim_C10 {T R E : Type} (o : Owner T R) (s : SuggestState T R)
    (i : Int) (v : T) (event : E)
    (_hne : s.values ≠ [])
    (hsel : s.selectedItem = some i)
    (hv : jsIndex s.values (some i) = some v)
    (hfalsy : o.truthy v = false) :
    Suggest.useSelectedItem o s event = [] := by
  rw [Suggest.useSelectedItem, hsel, hv]
  simp [hfalsy]

/-- Witness for claim C10: a non-empty one-element list whose selected value
is the falsy string `""`. -/
theorem claim_C10_witness :
    Suggest.useSelectedItem stringOwner
      { values := [""], suggestions := [⟨"", false⟩], selectedItem := some 0 }
      "click" = [] :=
  claim_C10 stringOwner
    { values := [""], suggestions := [⟨"", false⟩], selectedItem := some 0 }
    0 "" "click" (by decide) rfl (by decide) (by decide)

